import Mathlib

/-!
Verification development for the instagram-automation repository.

The repository ships several near-duplicate handler variants.  The claims
cite two of them:

* the "real API" serverless variant (src/api/index.js, first copy):
  generateZaiImage, generateZaiCaption, generateRealPosts;
* the mock serverless variant (src/api/index.js, second copy):
  handleSetup, handleStartJob, simulateJobExecution, generateMockPosts,
  handleJobStatus, handleJobResults, handleJobs;
* the Express variant (src/server.js): the /api/setup route.

Every definition below is a shallow embedding of the corresponding
JavaScript function.  Conventions:

* JavaScript strings are Lean Strings (JS .length counts UTF-16 units,
  Lean counts characters; every input in the claims is ASCII, where both
  agree).
* Nondeterministic leaf values (Date.now timestamps, Math.random id
  suffixes, scheduled_time draws) are not constrained by any claim; the
  id / scheduled_time / created_at fields of the JS post objects are
  therefore dropped from the Post record, and the Math.random query
  suffix of the mock picsum URL is supplied by an explicit oracle
  argument rnd.
* The external Z.ai Gateway is an oracle: a function from the prompt to
  the outcome of the HTTP call, with one constructor per way the JS code
  can take an exceptional path (non-ok HTTP status, malformed response
  body, rejected fetch / timeout).
-/

/-- Options object of a job request.  The JS code only ever reads
`options.max_posts`; `time_range` is carried along untouched. -/
structure Options where
  max_posts : Option Nat := none
  time_range : Option String := none
deriving DecidableEq, Repr

/-- The JS idiom `options.max_posts || 3`: an absent value is replaced by 3,
and so is 0, because 0 is falsy in JavaScript. -/
def effMaxPosts (o : Options) : Nat :=
  match o.max_posts with
  | some k => if k = 0 then 3 else k
  | none => 3

/-- One generated Instagram post, as assembled by generateRealPosts or
generateMockPosts.  The api_generated flag is absent (none) on mock posts,
mirroring the JS object that simply lacks the key. -/
structure Post where
  topic : String
  title : String
  caption : String
  hashtags : List String
  image_url : String
  image_prompt : Option String
  api_generated : Option Bool
  error : Option String
deriving DecidableEq, Repr

/-! ## encodeURIComponent

generateZaiImage builds its fallback placeholder URL with JavaScript
encodeURIComponent.  Unreserved output characters are the ASCII
alphanumerics and `- _ . ! ~ * ' ( )`; every other character is
percent-encoded byte-by-byte over its UTF-8 encoding. -/

/-- Characters that encodeURIComponent leaves as-is. -/
def uriUnreservedChar (c : Char) : Bool :=
  c.isAlphanum || c = '-' || c = '_' || c = '.' || c = '!' || c = '~' ||
    c = '*' || c = Char.ofNat 39 || c = '(' || c = ')'

/-- Uppercase hexadecimal digits used by percent-encoding. -/
def hexDigitChars : List Char :=
  ['0', '1', '2', '3', '4', '5', '6', '7', '8', '9', 'A', 'B', 'C', 'D', 'E', 'F']

/-- Hexadecimal digit for a value below 16 (out-of-range values never occur
for bytes). -/
def hexDigitAt (n : Nat) : Char := hexDigitChars.getD n '0'

/-- Percent-encoding of one byte value. -/
def percentEncodeByte (n : Nat) : List Char :=
  ['%', hexDigitAt (n / 16), hexDigitAt (n % 16)]

/-- UTF-8 bytes of a single character, as natural numbers. -/
def charUtf8 (c : Char) : List Nat :=
  ((String.singleton c).toUTF8.toList).map UInt8.toNat

/-- encodeURIComponent on a single character. -/
def encodeUriChar (c : Char) : List Char :=
  if uriUnreservedChar c then [c] else ((charUtf8 c).map percentEncodeByte).flatten

/-- encodeURIComponent on a character list. -/
def encodeUriList : List Char → List Char
  | [] => []
  | c :: cs => encodeUriChar c ++ encodeUriList cs

/-- JavaScript encodeURIComponent. -/
def encodeURIComponent (s : String) : String := String.mk (encodeUriList s.data)

/-! ## The Z.ai Gateway wrappers (src/api/index.js, lines 14-107) -/

/-- Outcome of the image-generation HTTP call, as distinguished by the JS
code: a parsed URL, a non-ok HTTP status with its body text, an ok
response missing data[0].url, or a rejected fetch (network error or
timeout) with its message. -/
inductive ImageApiOutcome
  | success (url : String)
  | httpError (status : Nat) (body : String)
  | malformed
  | networkError (msg : String)
deriving DecidableEq, Repr

/-- True when the image call did not produce a URL. -/
def imageOutcomeFailed : ImageApiOutcome → Bool
  | .success _ => false
  | _ => true

/-- Outcome of the chat-completion HTTP call, same shape. -/
inductive ChatApiOutcome
  | success (content : String)
  | httpError (status : Nat) (body : String)
  | malformed
  | networkError (msg : String)
deriving DecidableEq, Repr

/-- True when the chat call did not produce a caption. -/
def chatOutcomeFailed : ChatApiOutcome → Bool
  | .success _ => false
  | _ => true

/-- Error message thrown for a non-ok image response. -/
def imageErrorMessage (status : Nat) (body : String) : String :=
  s!"Z.ai Image API Error {status}: {body}"

/-- Fixed part of the fallback image URL of generateZaiImage. -/
def placeholderBase : String :=
  "https://via.placeholder.com/1024x1024/FF6B6B/FFFFFF?text=Z.ai+Error:+"

/-- Fallback image URL of generateZaiImage: the placeholder base followed by
the first 50 characters of the error message, URI-encoded. -/
def imagePlaceholder (msg : String) : String :=
  placeholderBase ++ encodeURIComponent (msg.take 50)

/-- generateZaiImage (src/api/index.js lines 14-56).  Every exceptional path
is caught and turned into a placeholder URL, so the function is total. -/
def generateZaiImage (beh : String → ImageApiOutcome) (prompt : String) : String :=
  match beh prompt with
  | .success url => url
  | .httpError status body => imagePlaceholder (imageErrorMessage status body)
  | .malformed => imagePlaceholder "Invalid image generation response format"
  | .networkError msg => imagePlaceholder msg

/-- Fallback caption returned by generateZaiCaption on any failure. -/
def fallbackCaption : String :=
  "📰 Berita terkini tentang topik penting. Follow kami untuk update berita Indonesia terbaru! #BeritaIndonesia #Indonesia #News"

/-- generateZaiCaption (src/api/index.js lines 59-107).  Every exceptional
path is caught and turned into the fixed fallback caption. -/
def generateZaiCaption (beh : String → ChatApiOutcome) (prompt : String) : String :=
  match beh prompt with
  | .success content => content
  | _ => fallbackCaption

/-! ## generateRealPosts (src/api/index.js, lines 412-479) -/

/-- The JS `topic.replace(/\s+/g, '')`: delete every whitespace character. -/
def stripSpaces (s : String) : String :=
  String.mk (s.data.filter (fun c => !c.isWhitespace))

/-- Image prompt built for a topic. -/
def imagePromptFor (topic : String) : String :=
  s!"Create a professional Instagram post image about Indonesian news topic: {topic}. Style should be modern, clean, suitable for social media, with relevant visuals."

/-- Caption prompt built for a topic. -/
def captionPromptFor (topic : String) : String :=
  s!"Create an engaging Instagram caption for Indonesian news topic: {topic}. Include relevant hashtags and make it professional. Format for social media engagement."

/-- The post assembled by the try block of generateRealPosts.  The block
sets api_generated to true unconditionally: generateZaiImage and
generateZaiCaption handle their own errors internally and never throw, so
whether either call actually succeeded is invisible at this point. -/
def realPost (imgBeh : String → ImageApiOutcome) (chatBeh : String → ChatApiOutcome)
    (topic : String) : Post :=
  let imagePrompt := imagePromptFor topic
  let imageUrl := generateZaiImage imgBeh imagePrompt
  let caption := generateZaiCaption chatBeh (captionPromptFor topic)
  { topic := topic
  , title := s!"{topic} - Indonesian News Update"
  , caption := caption
  , hashtags := ["#" ++ stripSpaces topic, "#BeritaIndonesia", "#Indonesia", "#News", "#IndonesianNews"]
  , image_url := imageUrl
  , image_prompt := some imagePrompt
  , api_generated := some true
  , error := none }

/-- The post built in the catch block of generateRealPosts.  Because the
try block is made of total operations (the Gateway wrappers never throw),
this branch is unreachable in the source; it is kept here because it
documents the intended meaning of the api_generated flag. -/
def fallbackRealPost (topic : String) (errMsg : String) : Post :=
  { topic := topic
  , title := s!"{topic} - Generation Failed"
  , caption := s!"📰 Content about {topic}. Image generation encountered an error. Please check API configuration. #{topic} #Indonesia #News"
  , hashtags := ["#" ++ stripSpaces topic, "#BeritaIndonesia", "#Indonesia"]
  , image_url := "https://via.placeholder.com/1080x1080/FF6B6B/FFFFFF?text=Error+Generating+Image"
  , image_prompt := none
  , api_generated := some false
  , error := some errMsg }

/-- generateRealPosts: for each topic in order, effMaxPosts posts are pushed;
the loop body never throws, so every iteration pushes the try-block post. -/
def generateRealPosts (imgBeh : String → ImageApiOutcome)
    (chatBeh : String → ChatApiOutcome) : List String → Options → List Post
  | [], _ => []
  | topic :: rest, options =>
      (List.range (effMaxPosts options)).map (fun _ => realPost imgBeh chatBeh topic)
        ++ generateRealPosts imgBeh chatBeh rest options

/-! ## generateMockPosts (src/api/index.js, lines 832-852) -/

/-- One mock post.  rnd stands for the Math.random() draw interpolated into
the picsum URL; i is the 0-based loop index of the post within its topic. -/
def mockPost (rnd : String) (topic : String) (i : Nat) : Post :=
  let i1 := i + 1
  { topic := topic
  , title := s!"AI-Generated Post about {topic} #{i1}"
  , caption := s!"🚀 Exciting content about {topic}! This is an AI-generated post to inspire your audience. #{topic} #AI #ContentCreation"
  , hashtags := ["#" ++ topic, "#AI", "#ContentCreation", "#SocialMedia", "#DigitalMarketing"]
  , image_url := "https://picsum.photos/1080/1080?random=" ++ rnd
  , image_prompt := none
  , api_generated := none
  , error := none }

/-- generateMockPosts: effMaxPosts posts per topic, in topic order.  The
oracle rnd supplies the successive Math.random() draws; each topic consumes
effMaxPosts of them. -/
def generateMockPosts (rnd : Nat → String) : List String → Options → List Post
  | [], _ => []
  | topic :: rest, options =>
      (List.range (effMaxPosts options)).map (fun i => mockPost (rnd i) topic i)
        ++ generateMockPosts (fun j => rnd (j + effMaxPosts options)) rest options

/-! ## Basic length facts about the generators -/

theorem generateRealPosts_length (imgBeh : String → ImageApiOutcome)
    (chatBeh : String → ChatApiOutcome) (topics : List String) (options : Options) :
    (generateRealPosts imgBeh chatBeh topics options).length
      = topics.length * effMaxPosts options := by
  induction topics with
  | nil => simp [generateRealPosts]
  | cons t ts ih =>
      simp [generateRealPosts, ih, Nat.succ_mul, Nat.add_comm]

theorem generateMockPosts_length (rnd : Nat → String) (topics : List String)
    (options : Options) :
    (generateMockPosts rnd topics options).length
      = topics.length * effMaxPosts options := by
  induction topics generalizing rnd with
  | nil => simp [generateMockPosts]
  | cons t ts ih =>
      simp [generateMockPosts, ih, Nat.succ_mul, Nat.add_comm]

/-! ## The job lifecycle tracker

handleStartJob (src/api/index.js, lines 740-791 and 292-343, identical)
creates the job record and schedules simulateJobExecution; the latter
(lines 793-830) is a setInterval callback mutating the job record and,
on the final tick, publishing the result.  We model the per-job state —
the activeJobs entry, the closure counter currentTopic, the jobResults
entry and whether the interval has been cleared — and the interval
callback as a step function on that state.  The step function is
parameterized by mkPosts, the post generator invoked at completion time
(generateMockPosts in the mock variant; in the real-API variant the same
code shape calls generateRealPosts with a fallback to mock posts, both
total). -/

/-- One job record, the value stored in activeJobs.  The started_at and
completed_at ISO timestamps (wall-clock reads) are omitted; every other
field of the JS object is present. -/
structure JobRec where
  status : String
  progress : Nat
  current_topic : String
  message : String
  topics : List String
  options : Options
  total_posts : Option Nat
deriving DecidableEq, Repr

/-- One published result, the value stored in jobResults (completed_at
timestamp omitted; the real-API variant adds an api_integration metadata
object that no claim mentions). -/
structure JobResultRec where
  posts : List Post
  total_posts : Nat
deriving DecidableEq, Repr

/-- Per-job slice of the process state: this job's activeJobs entry, the
interval closure's currentTopic counter, this job's jobResults entry, and
whether clearInterval has run. -/
structure SimState where
  job : Option JobRec
  currentTopic : Nat
  result : Option JobResultRec
  cleared : Bool
deriving DecidableEq, Repr

/-- The job record inserted by handleStartJob: note the initial status is
the string written in the source, and progress starts at 0. -/
def initialJob (topics : List String) (options : Options) : JobRec :=
  { status := "running"
  , progress := 0
  , current_topic := ""
  , message := "Initializing automation system..."
  , topics := topics
  , options := options
  , total_posts := none }

/-- State right after handleStartJob: job inserted, counter 0, no result,
interval armed. -/
def initState (topics : List String) (options : Options) : SimState :=
  { job := some (initialJob topics options)
  , currentTopic := 0
  , result := none
  , cleared := false }

/-- HTTP outcome of handleStartJob together with the state it installs. -/
structure StartJobOutcome where
  httpStatus : Nat
  newState : Option SimState
deriving DecidableEq, Repr

/-- handleStartJob: 400 when topics is absent or empty (the Array.isArray
check is subsumed by the type); otherwise inserts the job in status
"running" and schedules the simulation. -/
def handleStartJob (topics : Option (List String)) (options : Options) : StartJobOutcome :=
  match topics with
  | none => { httpStatus := 400, newState := none }
  | some ts =>
      if ts.isEmpty then { httpStatus := 400, newState := none }
      else { httpStatus := 200, newState := some (initState ts options) }

/-- Math.round((k / n) * 100) for natural k and positive n, i.e. the
nearest integer to 100*k/n with halves rounded up:
floor(100*k/n + 1/2) = (200*k + n) / (2*n) in natural division.  (The JS
expression evaluates in binary floating point; at the integer magnitudes a
job can reach the two agree except within one ulp of a half, and every
concrete instance used below is exactly representable.) -/
def jsRound100 (k n : Nat) : Nat := (200 * k + n) / (2 * n)

/-- Progress message written by a non-final tick (k is the 0-based index of
the topic being processed, T the topic count, t the topic). -/
def processingMessage (k T : Nat) (t : String) : String :=
  let k1 := k + 1
  s!"Processing topic {k1}/{T}: {t}"

/-- Message written by the completion tick. -/
def completedMessage (T : Nat) : String :=
  s!"Successfully processed {T} topics"

/-- One setInterval tick of simulateJobExecution.  Mirrors the source box
by box: a cleared interval does nothing; a vanished job or a failed status
clears the interval; once currentTopic reaches the topic count the job is
completed, progress forced to 100, total_posts recorded and the result
published in the same tick; otherwise progress, current_topic and message
are rewritten and the counter advances. -/
def simulateJobTick (mkPosts : List String → Options → List Post)
    (topics : List String) (options : Options) (s : SimState) : SimState :=
  if s.cleared then s else
  match s.job with
  | none => { s with cleared := true }
  | some job =>
      if job.status = "failed" then { s with cleared := true }
      else if topics.length ≤ s.currentTopic then
        let T := topics.length
        let total := T * effMaxPosts options
        let doneJob := { job with
          status := "completed"
          , progress := 100
          , message := completedMessage T
          , total_posts := some total }
        { job := some doneJob
        , currentTopic := s.currentTopic
        , result := some { posts := mkPosts topics options, total_posts := total }
        , cleared := true }
      else
        let k := s.currentTopic
        let T := topics.length
        let t := topics.getD k ""
        let j := { job with
          progress := jsRound100 k T
          , current_topic := t
          , message := processingMessage k T t }
        { job := some j
        , currentTopic := k + 1
        , result := s.result
        , cleared := false }

/-- State of the job after n ticks of the interval. -/
def simulateJobRun (mkPosts : List String → Options → List Post)
    (topics : List String) (options : Options) : Nat → SimState
  | 0 => initState topics options
  | n + 1 => simulateJobTick mkPosts topics options (simulateJobRun mkPosts topics options n)

/-- Status a poll reads from the job record (empty when the record is
gone; never happens on the reachable states). -/
def statusOf (s : SimState) : String :=
  match s.job with
  | some j => j.status
  | none => ""

/-- Progress a poll reads from the job record. -/
def progressOf (s : SimState) : Nat :=
  match s.job with
  | some j => j.progress
  | none => 0

/-- handleJobResults keyed on the jobResults lookup: 404 when the map has
no entry, 200 otherwise. -/
def resultsHttpCode (r : Option JobResultRec) : Nat :=
  match r with
  | none => 404
  | some _ => 200

/-- handleJobStatus keyed on the activeJobs lookup: 404 when the map has no
entry, 200 otherwise. -/
def statusHttpCode (j : Option JobRec) : Nat :=
  match j with
  | none => 404
  | some _ => 200

/-- Payload of GET /api/jobs restricted to one job id: handleJobs serializes
activeJobs and jobResults wholesale, so this job's entry in active_jobs is
exactly its activeJobs record and its entry in completed_jobs exactly its
jobResults record. -/
structure JobsView where
  active_jobs : Option JobRec
  completed_jobs : Option JobResultRec
deriving DecidableEq, Repr

/-- handleJobs (src/api/index.js lines 880-885), per-job slice. -/
def handleJobs (s : SimState) : JobsView :=
  { active_jobs := s.job, completed_jobs := s.result }

/-! ## Closed form of the simulation -/

/-- Job record during the running phase after the tick processing topic k. -/
def runningJob (topics : List String) (options : Options) (k : Nat) : JobRec :=
  { status := "running"
  , progress := jsRound100 k topics.length
  , current_topic := topics.getD k ""
  , message := processingMessage k topics.length (topics.getD k "")
  , topics := topics
  , options := options
  , total_posts := none }

/-- Job record after completion. -/
def completedJob (topics : List String) (options : Options) : JobRec :=
  { status := "completed"
  , progress := 100
  , current_topic := topics.getD (topics.length - 1) ""
  , message := completedMessage topics.length
  , topics := topics
  , options := options
  , total_posts := some (topics.length * effMaxPosts options) }

/-- The published result. -/
def completedResult (mkPosts : List String → Options → List Post)
    (topics : List String) (options : Options) : JobResultRec :=
  { posts := mkPosts topics options
  , total_posts := topics.length * effMaxPosts options }

/-- Closed form of simulateJobRun for a job with at least one topic:
untouched at n = 0, running on topic n-1 for 1 ≤ n ≤ T, completed with the
result published for n > T. -/
def stateAt (mkPosts : List String → Options → List Post)
    (topics : List String) (options : Options) (n : Nat) : SimState :=
  if n = 0 then initState topics options
  else if n ≤ topics.length then
    { job := some (runningJob topics options (n - 1))
    , currentTopic := n
    , result := none
    , cleared := false }
  else
    { job := some (completedJob topics options)
    , currentTopic := topics.length
    , result := some (completedResult mkPosts topics options)
    , cleared := true }

theorem run_eq_stateAt (mkPosts : List String → Options → List Post)
    (topics : List String) (options : Options) (h : topics ≠ []) :
    ∀ n, simulateJobRun mkPosts topics options n = stateAt mkPosts topics options n := by
  have hT : 0 < topics.length := List.length_pos.mpr h
  intro n
  induction n with
  | zero => simp [simulateJobRun, stateAt]
  | succ n ih =>
      rw [simulateJobRun, ih]
      rcases Nat.eq_zero_or_pos n with h0 | hpos
      · subst h0
        have hL : stateAt mkPosts topics options 0 = initState topics options := by
          simp [stateAt]
        have hR : stateAt mkPosts topics options (0 + 1)
            = { job := some (runningJob topics options 0), currentTopic := 1
              , result := none, cleared := false } := by
          rw [stateAt, if_neg (by omega : ¬ (0 + 1 = 0)),
            if_pos (by omega : 0 + 1 ≤ topics.length)]
        rw [hL, hR]
        simp only [simulateJobTick, initState, initialJob]
        rw [if_neg (by decide : ¬ (("running" : String) = "failed"))]
        rw [if_neg (by omega : ¬ topics.length ≤ 0)]
        simp [runningJob]
      · rcases Nat.lt_or_ge n topics.length with hlt | hge
        · -- running phase, next tick is another update or the completion tick
          have hn1 : ¬ (n = 0) := by omega
          rw [stateAt, if_neg hn1, if_pos (by omega : n ≤ topics.length)]
          simp only [simulateJobTick, runningJob]
          rw [if_neg (by decide : ¬ (("running" : String) = "failed"))]
          rcases Nat.lt_or_ge n topics.length with hlt2 | _
          · rw [if_neg (by omega : ¬ topics.length ≤ n)]
            rw [stateAt, if_neg (by omega : ¬ (n + 1 = 0)),
              if_pos (by omega : n + 1 ≤ topics.length)]
            simp [runningJob, Nat.add_sub_cancel]
          · omega
        · -- n ≥ T: the state is either about to complete (n = T) or done
          rcases Nat.eq_or_lt_of_le hge with heq | hgt
          · -- n = T ≥ 1: completion tick
            rw [stateAt, if_neg (by omega : ¬ (n = 0)), if_pos (Nat.le_of_eq heq.symm)]
            simp only [simulateJobTick, runningJob]
            rw [if_neg (by decide : ¬ (("running" : String) = "failed"))]
            rw [if_pos (by omega : topics.length ≤ n)]
            rw [stateAt, if_neg (by omega : ¬ (n + 1 = 0)),
              if_neg (by omega : ¬ (n + 1 ≤ topics.length))]
            rw [if_neg (by decide : ¬ (false = true))]
            simp only [completedJob, completedResult]
            rw [heq]
          · -- n > T: already completed, the tick does nothing
            rw [stateAt, if_neg (by omega : ¬ (n = 0)),
              if_neg (by omega : ¬ (n ≤ topics.length))]
            rw [simulateJobTick, if_pos rfl]
            rw [stateAt, if_neg (by omega : ¬ (n + 1 = 0)),
              if_neg (by omega : ¬ (n + 1 ≤ topics.length))]

/-! ## The /api/setup handlers (src/server.js lines 14-45 and
src/api/index.js lines 660-724) -/

/-- JavaScript truthiness of an optional string: undefined (absent) and
the empty string are falsy. -/
def jsFalsyStr : Option String → Bool
  | none => true
  | some v => v == ""

/-- Response of a setup handler (the 500 catch-all paths are unreachable
for the modelled inputs). -/
inductive SetupResponse
  | badRequest (msg : String)
  | okResponse (msg : String)
deriving DecidableEq, Repr

/-- HTTP status of a setup response. -/
def setupHttpCode : SetupResponse → Nat
  | .badRequest _ => 400
  | .okResponse _ => 200

/-- POST /api/setup of src/server.js: 400 when api_key is falsy, 400 when
its length is below 10, 200 otherwise. -/
def serverSetup (api_key : Option String) : SetupResponse :=
  if jsFalsyStr api_key then .badRequest "API key is required"
  else if (api_key.getD "").length < 10 then
    .badRequest "API key must be at least 10 characters"
  else .okResponse "API key validated successfully"

/-- handleSetup of src/api/index.js: the body api_key falls back to the
X-API-Key header when falsy; a falsy effective key is a 400, and the
success branch demands length strictly greater than 10. -/
def handleSetup (body_key header_key : Option String) : SetupResponse :=
  let api_key := if jsFalsyStr body_key then header_key else body_key
  if jsFalsyStr api_key then .badRequest "API key is required"
  else if 10 < (api_key.getD "").length then
    .okResponse "API key validated successfully"
  else .badRequest "Invalid API key format"

/-! ## Arithmetic facts about the progress formula -/

theorem jsRound100_zero (n : Nat) (h : 0 < n) : jsRound100 0 n = 0 := by
  unfold jsRound100
  apply Nat.div_eq_of_lt
  omega

theorem jsRound100_mono (k n : Nat) : jsRound100 k n ≤ jsRound100 (k + 1) n :=
  Nat.div_le_div_right (by omega)

theorem jsRound100_le_100 (k n : Nat) (h : k < n) : jsRound100 k n ≤ 100 := by
  unfold jsRound100
  have h2 : 0 < 2 * n := by omega
  have h3 : 200 * k + n < 101 * (2 * n) := by omega
  have := (Nat.div_lt_iff_lt_mul h2).mpr h3
  omega

/-! ## The fallback placeholder URL is a well-formed URL -/

theorem hexDigitAt_ne_space (n : Nat) : hexDigitAt n ≠ ' ' := by
  by_cases h : n < 16
  · interval_cases n <;> decide
  · unfold hexDigitAt
    rw [List.getD_eq_default _ _ (show hexDigitChars.length ≤ n by
      rw [show hexDigitChars.length = 16 from rfl]; omega)]
    decide

theorem space_not_mem_encodeUriChar (c : Char) : ' ' ∉ encodeUriChar c := by
  unfold encodeUriChar
  by_cases hu : uriUnreservedChar c
  · rw [if_pos hu]
    intro hmem
    rw [List.mem_singleton] at hmem
    rw [← hmem] at hu
    exact absurd hu (by decide)
  · rw [if_neg hu]
    intro hmem
    rw [List.mem_flatten] at hmem
    obtain ⟨l, hl, hc⟩ := hmem
    rw [List.mem_map] at hl
    obtain ⟨b, _, rfl⟩ := hl
    unfold percentEncodeByte at hc
    simp only [List.mem_cons, List.not_mem_nil, or_false] at hc
    rcases hc with hc | hc | hc
    · exact absurd hc (by decide)
    · exact absurd hc.symm (hexDigitAt_ne_space (b / 16))
    · exact absurd hc.symm (hexDigitAt_ne_space (b % 16))

theorem space_not_mem_encodeUriList (l : List Char) : ' ' ∉ encodeUriList l := by
  induction l with
  | nil => simp [encodeUriList]
  | cons c cs ih =>
      rw [encodeUriList]
      intro hmem
      rcases List.mem_append.mp hmem with h | h
      · exact space_not_mem_encodeUriChar c h
      · exact ih h

theorem space_not_mem_encodeURIComponent (s : String) :
    ' ' ∉ (encodeURIComponent s).data :=
  space_not_mem_encodeUriList s.data

/-- A well-formed fallback image URL: the via.placeholder.com base with a
URI-encoded payload, containing no space anywhere. -/
def wellFormedPlaceholder (u : String) : Prop :=
  (∃ t, u = placeholderBase ++ encodeURIComponent t) ∧ ' ' ∉ u.data

theorem imagePlaceholder_wellFormed (msg : String) :
    wellFormedPlaceholder (imagePlaceholder msg) := by
  refine ⟨⟨msg.take 50, rfl⟩, ?_⟩
  unfold imagePlaceholder
  rw [String.data_append]
  intro hmem
  rcases List.mem_append.mp hmem with h | h
  · exact absurd h (by decide)
  · exact space_not_mem_encodeURIComponent _ h

theorem generateZaiImage_fail_wellFormed (beh : String → ImageApiOutcome)
    (prompt : String) (hfail : imageOutcomeFailed (beh prompt) = true) :
    wellFormedPlaceholder (generateZaiImage beh prompt) := by
  unfold generateZaiImage
  cases hbeh : beh prompt with
  | success url => rw [hbeh] at hfail; exact absurd hfail (by simp [imageOutcomeFailed])
  | httpError status body => exact imagePlaceholder_wellFormed _
  | malformed => exact imagePlaceholder_wellFormed _
  | networkError msg => exact imagePlaceholder_wellFormed _

/-! ## Hashtag helpers -/

theorem hash_append_head (s : String) : ("#" ++ s).data.head? = some '#' := by
  rw [String.data_append]
  rfl

theorem space_not_mem_hash_strip (t : String) : ' ' ∉ ("#" ++ stripSpaces t).data := by
  rw [String.data_append]
  intro hmem
  rcases List.mem_append.mp hmem with h | h
  · exact absurd h (by decide)
  · rcases List.mem_filter.mp h with ⟨_, hw⟩
    exact absurd hw (by decide)

/-! ## Concrete oracles used in witnesses and counterexamples -/

/-- A Gateway whose image endpoint always rejects. -/
def alwaysFailImage : String → ImageApiOutcome := fun _ => .networkError "fetch failed"

/-- A Gateway whose chat endpoint always rejects. -/
def alwaysFailChat : String → ChatApiOutcome := fun _ => .networkError "fetch failed"

/-- A Gateway whose image endpoint always succeeds. -/
def successImage : String → ImageApiOutcome := fun _ => .success "https://img.example/1.png"

/-- A Gateway whose chat endpoint always succeeds. -/
def successChat : String → ChatApiOutcome := fun _ => .success "a generated caption"

/-- A fixed Math.random oracle. -/
def mockRnd0 : Nat → String := fun _ => "0.5"

/-- A degenerate post generator (any generator may be plugged into the
simulation; the lifecycle is independent of it). -/
def emptyMkPosts : List String → Options → List Post := fun _ _ => []

/-! ## Which posts the generators can produce -/

theorem generateRealPosts_mem (imgBeh : String → ImageApiOutcome)
    (chatBeh : String → ChatApiOutcome) (topics : List String) (options : Options)
    (post : Post) (hmem : post ∈ generateRealPosts imgBeh chatBeh topics options) :
    ∃ t ∈ topics, post = realPost imgBeh chatBeh t := by
  induction topics with
  | nil => simp [generateRealPosts] at hmem
  | cons t ts ih =>
      rw [generateRealPosts] at hmem
      rcases List.mem_append.mp hmem with h | h
      · rcases List.mem_map.mp h with ⟨i, _, rfl⟩
        exact ⟨t, List.mem_cons_self t ts, rfl⟩
      · obtain ⟨u, hu, rfl⟩ := ih h
        exact ⟨u, List.mem_cons_of_mem t hu, rfl⟩

theorem generateMockPosts_mem (rnd : Nat → String) (topics : List String)
    (options : Options) (post : Post)
    (hmem : post ∈ generateMockPosts rnd topics options) :
    ∃ t ∈ topics, ∃ r i, post = mockPost r t i := by
  induction topics generalizing rnd with
  | nil => simp [generateMockPosts] at hmem
  | cons t ts ih =>
      rw [generateMockPosts] at hmem
      rcases List.mem_append.mp hmem with h | h
      · rcases List.mem_map.mp h with ⟨i, _, rfl⟩
        exact ⟨t, List.mem_cons_self t ts, rnd i, i, rfl⟩
      · obtain ⟨u, hu, r, i, rfl⟩ := ih _ h
        exact ⟨u, List.mem_cons_of_mem t hu, r, i, rfl⟩

/-! ## Claim C5 -/

/-- C5 counterexample: the job record inserted by handleStartJob carries
status "running" from the outset, not "pending" as claimed. -/
theorem c5_counterexample :
    (handleStartJob (some ["teknologi"]) { max_posts := none }).newState
        = some (initState ["teknologi"] { max_posts := none })
    ∧ (initialJob ["teknologi"] { max_posts := none }).status = "running"
    ∧ ¬ ((initialJob ["teknologi"] { max_posts := none }).status = "pending") :=
  ⟨rfl, rfl, by decide⟩

/-- C5 amended: for every non-empty topics list, handleStartJob answers 200
and inserts the job directly in status "running" with progress 0 (there is
no "pending" phase; advancement is scheduled immediately), while an absent
or empty topics list is a 400 and inserts nothing. -/
theorem c5_insert_running (topics : List String) (options : Options)
    (h : topics ≠ []) :
    (handleStartJob (some topics) options).httpStatus = 200
    ∧ (handleStartJob (some topics) options).newState = some (initState topics options)
    ∧ (initState topics options).job = some (initialJob topics options)
    ∧ (initialJob topics options).status = "running"
    ∧ (initialJob topics options).progress = 0
    ∧ (handleStartJob (some ([] : List String)) options).httpStatus = 400
    ∧ (handleStartJob (some ([] : List String)) options).newState = none
    ∧ (handleStartJob none options).httpStatus = 400 := by
  have hne : ¬ topics.isEmpty := by
    cases topics with
    | nil => exact absurd rfl h
    | cons a l => simp [List.isEmpty]
  refine ⟨?_, ?_, rfl, rfl, rfl, rfl, rfl, rfl⟩ <;>
    simp [handleStartJob, hne]

theorem c5_witness :
    (["teknologi"] : List String) ≠ []
    ∧ ((handleStartJob (some ["teknologi"]) { max_posts := none }).httpStatus = 200
    ∧ (handleStartJob (some ["teknologi"]) { max_posts := none }).newState
        = some (initState ["teknologi"] { max_posts := none })
    ∧ (initState ["teknologi"] { max_posts := none }).job
        = some (initialJob ["teknologi"] { max_posts := none })
    ∧ (initialJob ["teknologi"] { max_posts := none }).status = "running"
    ∧ (initialJob ["teknologi"] { max_posts := none }).progress = 0
    ∧ (handleStartJob (some ([] : List String)) { max_posts := none }).httpStatus = 400
    ∧ (handleStartJob (some ([] : List String)) { max_posts := none }).newState = none
    ∧ (handleStartJob none { max_posts := none }).httpStatus = 400) :=
  ⟨by decide, c5_insert_running ["teknologi"] { max_posts := none } (by decide)⟩

/-! ## Claim C9 -/

/-- C9 counterexample: handleSetup of src/api/index.js rejects an api_key
of length exactly 10 with a 400, although the claim promises a success for
every key of length at least 10. -/
theorem c9_counterexample :
    setupHttpCode (handleSetup (some "0123456789") none) = 400
    ∧ ("0123456789" : String).length = 10 := by
  constructor
  · rfl
  · rfl

/-- C9 amended: the Express route of src/server.js behaves as claimed (400
exactly when the key is missing, empty or shorter than 10; 200 for length
at least 10), but the serverless handleSetup variant demands length
strictly greater than 10, so a 10-character key gets a 400 there; its body
key falls back to the X-API-Key header when falsy. -/
theorem c9_setup_validation (k : String) :
    (setupHttpCode (serverSetup (some k)) = 200 ↔ (k ≠ "" ∧ 10 ≤ k.length))
    ∧ (setupHttpCode (serverSetup (some k)) = 400 ↔ (k = "" ∨ k.length < 10))
    ∧ setupHttpCode (serverSetup none) = 400
    ∧ (setupHttpCode (handleSetup (some k) none) = 200 ↔ (k ≠ "" ∧ 11 ≤ k.length))
    ∧ setupHttpCode (handleSetup none none) = 400
    ∧ handleSetup none (some k) = handleSetup (some k) none := by
  by_cases hk : k = ""
  · subst hk
    refine ⟨by simp [serverSetup, jsFalsyStr, setupHttpCode], ?_, rfl, ?_, rfl, rfl⟩
    · simp [serverSetup, jsFalsyStr, setupHttpCode]
    · simp [handleSetup, jsFalsyStr, setupHttpCode]
  · have hfalsy : jsFalsyStr (some k) = false := by
      simp [jsFalsyStr, hk]
    refine ⟨?_, ?_, rfl, ?_, rfl, ?_⟩
    · rw [serverSetup, hfalsy]
      by_cases hlen : k.length < 10
      · simp [hlen, setupHttpCode, hk] <;> omega
      · simp [hlen, setupHttpCode, hk] <;> omega
    · rw [serverSetup, hfalsy]
      by_cases hlen : k.length < 10
      · simp [hlen, setupHttpCode, hk] <;> omega
      · simp [hlen, setupHttpCode, hk] <;> omega
    · rw [handleSetup]
      simp only [hfalsy, Bool.false_eq_true, if_false]
      by_cases hlen : 10 < k.length
      · simp [hlen, setupHttpCode, hk] <;> omega
      · simp [hlen, setupHttpCode, hk] <;> omega
    · simp [handleSetup, jsFalsyStr, hk]

/-! ## Claim C7 -/

/-- C7: for every job with at least one topic, the progress read by a poll
is an integer within 0..100 and never decreases from one tick to the next,
whatever post generator runs at completion. -/
theorem c7_progress_monotone (mkPosts : List String → Options → List Post)
    (topics : List String) (options : Options) (h : topics ≠ []) (n : Nat) :
    progressOf (simulateJobRun mkPosts topics options n) ≤ 100
    ∧ progressOf (simulateJobRun mkPosts topics options n)
        ≤ progressOf (simulateJobRun mkPosts topics options (n + 1)) := by
  have hT : 0 < topics.length := List.length_pos.mpr h
  rw [run_eq_stateAt mkPosts topics options h n,
    run_eq_stateAt mkPosts topics options h (n + 1)]
  by_cases h0 : n = 0
  · subst h0
    rw [show stateAt mkPosts topics options 0 = initState topics options from by
      simp [stateAt]]
    rw [stateAt, if_neg (by omega : ¬ (0 + 1 = 0)),
      if_pos (by omega : 0 + 1 ≤ topics.length)]
    exact ⟨by simp [progressOf, initState, initialJob],
      by simp [progressOf, initState, initialJob]⟩
  · by_cases hle : n ≤ topics.length
    · rw [stateAt, if_neg h0, if_pos hle]
      constructor
      · simp only [progressOf, runningJob]
        exact jsRound100_le_100 _ _ (by omega)
      · by_cases hle2 : n + 1 ≤ topics.length
        · rw [stateAt, if_neg (by omega : ¬ (n + 1 = 0)), if_pos hle2]
          simp only [progressOf, runningJob]
          rw [show n + 1 - 1 = (n - 1) + 1 from by omega]
          exact jsRound100_mono _ _
        · rw [stateAt, if_neg (by omega : ¬ (n + 1 = 0)), if_neg hle2]
          simp only [progressOf, runningJob, completedJob]
          exact jsRound100_le_100 _ _ (by omega)
    · rw [stateAt, if_neg h0, if_neg hle, stateAt,
        if_neg (by omega : ¬ (n + 1 = 0)), if_neg (by omega : ¬ (n + 1 ≤ topics.length))]
      exact ⟨le_refl 100, le_refl 100⟩

theorem c7_witness :
    (["a"] : List String) ≠ []
    ∧ (progressOf (simulateJobRun emptyMkPosts ["a"] { max_posts := none } 1) ≤ 100
    ∧ progressOf (simulateJobRun emptyMkPosts ["a"] { max_posts := none } 1)
        ≤ progressOf (simulateJobRun emptyMkPosts ["a"] { max_posts := none } (1 + 1))) :=
  ⟨by decide, c7_progress_monotone emptyMkPosts ["a"] { max_posts := none } (by decide) 1⟩

/-! ## Claim C10 -/

/-- C10 counterexample: with 256 topics, the tick that starts the last
topic writes progress round(100*255/256) = 100 while the status is still
"running", so progress 100 does not imply completion. -/
theorem c10_counterexample :
    statusOf (simulateJobRun emptyMkPosts (List.replicate 256 "t") { max_posts := none } 256)
        = "running"
    ∧ progressOf (simulateJobRun emptyMkPosts (List.replicate 256 "t") { max_posts := none } 256)
        = 100 := by
  have h : (List.replicate 256 "t" : List String) ≠ [] :=
    List.length_pos.mp (by rw [List.length_replicate]; omega)
  rw [run_eq_stateAt emptyMkPosts (List.replicate 256 "t") { max_posts := none } h 256]
  rw [stateAt, if_neg (by omega : ¬ (256 = 0)),
    if_pos (by rw [List.length_replicate] : 256 ≤ (List.replicate 256 "t").length)]
  constructor
  · rfl
  · simp only [progressOf, runningJob, List.length_replicate]
    norm_num [jsRound100]

/-- C10 amended: progress is 100 whenever the job is completed and is
always at most 100; while the job is running it equals
round(100 * k / topics.length) for the number k < topics.length of
processed topics — a value that is at most 100 but can itself reach 100
(see the counterexample), so the two directions of "progress = 100 exactly
when completed" do not both hold. -/
theorem c10_progress_completion (mkPosts : List String → Options → List Post)
    (topics : List String) (options : Options) (h : topics ≠ []) (n : Nat) :
    (statusOf (simulateJobRun mkPosts topics options n) = "completed" →
      progressOf (simulateJobRun mkPosts topics options n) = 100)
    ∧ progressOf (simulateJobRun mkPosts topics options n) ≤ 100
    ∧ (statusOf (simulateJobRun mkPosts topics options n) = "running" →
        ∃ k, k < topics.length
          ∧ progressOf (simulateJobRun mkPosts topics options n)
              = jsRound100 k topics.length) := by
  have hT : 0 < topics.length := List.length_pos.mpr h
  rw [run_eq_stateAt mkPosts topics options h n]
  by_cases h0 : n = 0
  · subst h0
    rw [show stateAt mkPosts topics options 0 = initState topics options from by
      simp [stateAt]]
    refine ⟨?_, ?_, ?_⟩
    · intro hs
      exact absurd hs (by simp [statusOf, initState, initialJob])
    · simp [progressOf, initState, initialJob]
    · intro _
      exact ⟨0, hT, by simp [progressOf, initState, initialJob, jsRound100_zero _ hT]⟩
  · by_cases hle : n ≤ topics.length
    · rw [stateAt, if_neg h0, if_pos hle]
      refine ⟨?_, ?_, ?_⟩
      · intro hs
        exact absurd hs (by simp [statusOf, runningJob])
      · simp only [progressOf, runningJob]
        exact jsRound100_le_100 _ _ (by omega)
      · intro _
        exact ⟨n - 1, by omega, rfl⟩
    · rw [stateAt, if_neg h0, if_neg hle]
      refine ⟨fun _ => rfl, le_refl 100, ?_⟩
      · intro hs
        exact absurd hs (by simp [statusOf, completedJob])

theorem c10_witness :
    (["a"] : List String) ≠ []
    ∧ ((statusOf (simulateJobRun emptyMkPosts ["a"] { max_posts := none } 2) = "completed" →
      progressOf (simulateJobRun emptyMkPosts ["a"] { max_posts := none } 2) = 100)
    ∧ progressOf (simulateJobRun emptyMkPosts ["a"] { max_posts := none } 2) ≤ 100
    ∧ (statusOf (simulateJobRun emptyMkPosts ["a"] { max_posts := none } 2) = "running" →
        ∃ k, k < (["a"] : List String).length
          ∧ progressOf (simulateJobRun emptyMkPosts ["a"] { max_posts := none } 2)
              = jsRound100 k (["a"] : List String).length)) :=
  ⟨by decide, c10_progress_completion emptyMkPosts ["a"] { max_posts := none } (by decide) 2⟩

/-! ## Claim C6 -/

/-- C6: GET /api/job-results answers 404 exactly as long as the job has not
reached status "completed" (and 404 for an unknown id, whose lookup yields
none); the result is published in the very tick that sets the status to
"completed", with the fixed value completedResult, and stays unchanged
afterwards. -/
theorem c6_results_404_until_completed (mkPosts : List String → Options → List Post)
    (topics : List String) (options : Options) (h : topics ≠ []) (n : Nat) :
    resultsHttpCode none = 404
    ∧ (resultsHttpCode (simulateJobRun mkPosts topics options n).result = 404
        ↔ statusOf (simulateJobRun mkPosts topics options n) ≠ "completed")
    ∧ (statusOf (simulateJobRun mkPosts topics options n) = "completed" →
        (simulateJobRun mkPosts topics options n).result
            = some (completedResult mkPosts topics options)
        ∧ statusOf (simulateJobRun mkPosts topics options (n + 1)) = "completed"
        ∧ (simulateJobRun mkPosts topics options (n + 1)).result
            = (simulateJobRun mkPosts topics options n).result) := by
  have hT : 0 < topics.length := List.length_pos.mpr h
  refine ⟨rfl, ?_, ?_⟩
  · rw [run_eq_stateAt mkPosts topics options h n]
    by_cases h0 : n = 0
    · subst h0
      rw [show stateAt mkPosts topics options 0 = initState topics options from by
        simp [stateAt]]
      simp [resultsHttpCode, statusOf, initState, initialJob]
    · by_cases hle : n ≤ topics.length
      · rw [stateAt, if_neg h0, if_pos hle]
        simp [resultsHttpCode, statusOf, runningJob]
      · rw [stateAt, if_neg h0, if_neg hle]
        simp [resultsHttpCode, statusOf, completedJob]
  · intro hs
    rw [run_eq_stateAt mkPosts topics options h n] at hs ⊢
    rw [run_eq_stateAt mkPosts topics options h (n + 1)]
    by_cases h0 : n = 0
    · subst h0
      rw [show stateAt mkPosts topics options 0 = initState topics options from by
        simp [stateAt]] at hs
      exact absurd hs (by simp [statusOf, initState, initialJob])
    · by_cases hle : n ≤ topics.length
      · rw [stateAt, if_neg h0, if_pos hle] at hs
        exact absurd hs (by simp [statusOf, runningJob])
      · rw [stateAt, if_neg h0, if_neg hle,
          stateAt, if_neg (by omega : ¬ (n + 1 = 0)),
          if_neg (by omega : ¬ (n + 1 ≤ topics.length))]
        exact ⟨rfl, rfl, rfl⟩

theorem c6_witness :
    (["a"] : List String) ≠ []
    ∧ (resultsHttpCode none = 404
    ∧ (resultsHttpCode (simulateJobRun emptyMkPosts ["a"] { max_posts := none } 2).result = 404
        ↔ statusOf (simulateJobRun emptyMkPosts ["a"] { max_posts := none } 2) ≠ "completed")
    ∧ (statusOf (simulateJobRun emptyMkPosts ["a"] { max_posts := none } 2) = "completed" →
        (simulateJobRun emptyMkPosts ["a"] { max_posts := none } 2).result
            = some (completedResult emptyMkPosts ["a"] { max_posts := none })
        ∧ statusOf (simulateJobRun emptyMkPosts ["a"] { max_posts := none } (2 + 1)) = "completed"
        ∧ (simulateJobRun emptyMkPosts ["a"] { max_posts := none } (2 + 1)).result
            = (simulateJobRun emptyMkPosts ["a"] { max_posts := none } 2).result)) :=
  ⟨by decide, c6_results_404_until_completed emptyMkPosts ["a"] { max_posts := none } (by decide) 2⟩

/-! ## Claim C8 -/

/-- C8 counterexample: after the job with topic list ["a"] completes (two
ticks), handleJobs still lists it in active_jobs with status "completed" —
terminal jobs are never removed from the active mapping. -/
theorem c8_counterexample :
    statusOf (simulateJobRun (generateMockPosts mockRnd0) ["a"] { max_posts := some 1 } 2)
        = "completed"
    ∧ (handleJobs (simulateJobRun (generateMockPosts mockRnd0) ["a"] { max_posts := some 1 } 2)).active_jobs
        = some (completedJob ["a"] { max_posts := some 1 })
    ∧ (completedJob ["a"] { max_posts := some 1 }).status = "completed" := by
  have h : (["a"] : List String) ≠ [] := by decide
  rw [run_eq_stateAt (generateMockPosts mockRnd0) ["a"] { max_posts := some 1 } h 2]
  rw [stateAt, if_neg (by omega : ¬ (2 = 0)),
    if_neg (by simp : ¬ (2 ≤ (["a"] : List String).length))]
  exact ⟨rfl, rfl, rfl⟩

/-- C8 amended: the active_jobs mapping returned by handleJobs is the raw
activeJobs registry, which keeps every created job forever — running or
completed alike (the job record always exists and its status is one of the
two); completed_jobs has an entry for the job exactly once its status is
"completed". -/
theorem c8_active_jobs_keep_completed (mkPosts : List String → Options → List Post)
    (topics : List String) (options : Options) (h : topics ≠ []) (n : Nat) :
    (handleJobs (simulateJobRun mkPosts topics options n)).active_jobs
        = (simulateJobRun mkPosts topics options n).job
    ∧ (∃ j, (simulateJobRun mkPosts topics options n).job = some j
        ∧ (j.status = "running" ∨ j.status = "completed"))
    ∧ ((handleJobs (simulateJobRun mkPosts topics options n)).completed_jobs = none
        ↔ statusOf (simulateJobRun mkPosts topics options n) ≠ "completed") := by
  have hT : 0 < topics.length := List.length_pos.mpr h
  refine ⟨rfl, ?_, ?_⟩ <;>
    rw [run_eq_stateAt mkPosts topics options h n] <;>
    by_cases h0 : n = 0
  · subst h0
    rw [show stateAt mkPosts topics options 0 = initState topics options from by
      simp [stateAt]]
    exact ⟨initialJob topics options, rfl, Or.inl rfl⟩
  · by_cases hle : n ≤ topics.length
    · rw [stateAt, if_neg h0, if_pos hle]
      exact ⟨runningJob topics options (n - 1), rfl, Or.inl rfl⟩
    · rw [stateAt, if_neg h0, if_neg hle]
      exact ⟨completedJob topics options, rfl, Or.inr rfl⟩
  · subst h0
    rw [show stateAt mkPosts topics options 0 = initState topics options from by
      simp [stateAt]]
    simp [handleJobs, statusOf, initState, initialJob]
  · by_cases hle : n ≤ topics.length
    · rw [stateAt, if_neg h0, if_pos hle]
      simp [handleJobs, statusOf, runningJob]
    · rw [stateAt, if_neg h0, if_neg hle]
      simp [handleJobs, statusOf, completedJob]

theorem c8_witness :
    (["a"] : List String) ≠ []
    ∧ ((handleJobs (simulateJobRun emptyMkPosts ["a"] { max_posts := none } 1)).active_jobs
        = (simulateJobRun emptyMkPosts ["a"] { max_posts := none } 1).job
    ∧ (∃ j, (simulateJobRun emptyMkPosts ["a"] { max_posts := none } 1).job = some j
        ∧ (j.status = "running" ∨ j.status = "completed"))
    ∧ ((handleJobs (simulateJobRun emptyMkPosts ["a"] { max_posts := none } 1)).completed_jobs = none
        ↔ statusOf (simulateJobRun emptyMkPosts ["a"] { max_posts := none } 1) ≠ "completed")) :=
  ⟨by decide, c8_active_jobs_keep_completed emptyMkPosts ["a"] { max_posts := none } (by decide) 1⟩

/-! ## Claim C1 -/

/-- A completed run publishes a result whose posts list has exactly
topics.length * effMaxPosts entries, matching both the result's and the
job record's recorded total, for any generator producing that many posts. -/
theorem run_completed_result (mkPosts : List String → Options → List Post)
    (topics : List String) (options : Options) (h : topics ≠ []) (n : Nat)
    (hlen : (mkPosts topics options).length = topics.length * effMaxPosts options)
    (hs : statusOf (simulateJobRun mkPosts topics options n) = "completed") :
    ∃ r, (simulateJobRun mkPosts topics options n).result = some r
      ∧ r.posts.length = topics.length * effMaxPosts options
      ∧ r.total_posts = r.posts.length
      ∧ ∃ j, (simulateJobRun mkPosts topics options n).job = some j
          ∧ j.total_posts = some r.posts.length := by
  rw [run_eq_stateAt mkPosts topics options h n] at hs ⊢
  by_cases h0 : n = 0
  · subst h0
    rw [show stateAt mkPosts topics options 0 = initState topics options from by
      simp [stateAt]] at hs
    exact absurd hs (by simp [statusOf, initState, initialJob])
  · by_cases hle : n ≤ topics.length
    · rw [stateAt, if_neg h0, if_pos hle] at hs
      exact absurd hs (by simp [statusOf, runningJob])
    · rw [stateAt, if_neg h0, if_neg hle]
      refine ⟨completedResult mkPosts topics options, rfl, hlen, ?_,
        completedJob topics options, rfl, ?_⟩
      · show topics.length * effMaxPosts options = (mkPosts topics options).length
        exact hlen.symm
      · show some (topics.length * effMaxPosts options) = some (mkPosts topics options).length
        rw [hlen]

/-- C1: whenever a job reaches status "completed", its published result
holds exactly topics.length * effMaxPosts posts (3 per topic when the
max_posts option is absent), and that count equals the total recorded on
the result and on the job record — for the mock generator with any
Math.random draws, and for the real generator under any Gateway behavior,
i.e. regardless of how many per-post Gateway calls failed. -/
theorem c1_completed_result_size (rnd : Nat → String)
    (imgBeh : String → ImageApiOutcome) (chatBeh : String → ChatApiOutcome)
    (topics : List String) (options : Options) (h : topics ≠ []) (n : Nat) :
    effMaxPosts { max_posts := none } = 3
    ∧ (statusOf (simulateJobRun (generateMockPosts rnd) topics options n) = "completed" →
        ∃ r, (simulateJobRun (generateMockPosts rnd) topics options n).result = some r
          ∧ r.posts.length = topics.length * effMaxPosts options
          ∧ r.total_posts = r.posts.length
          ∧ ∃ j, (simulateJobRun (generateMockPosts rnd) topics options n).job = some j
              ∧ j.total_posts = some r.posts.length)
    ∧ (statusOf (simulateJobRun (generateRealPosts imgBeh chatBeh) topics options n)
          = "completed" →
        ∃ r, (simulateJobRun (generateRealPosts imgBeh chatBeh) topics options n).result
              = some r
          ∧ r.posts.length = topics.length * effMaxPosts options
          ∧ r.total_posts = r.posts.length
          ∧ ∃ j, (simulateJobRun (generateRealPosts imgBeh chatBeh) topics options n).job
                = some j
              ∧ j.total_posts = some r.posts.length) :=
  ⟨rfl,
    run_completed_result (generateMockPosts rnd) topics options h n
      (generateMockPosts_length rnd topics options),
    run_completed_result (generateRealPosts imgBeh chatBeh) topics options h n
      (generateRealPosts_length imgBeh chatBeh topics options)⟩

theorem c1_witness :
    (["a"] : List String) ≠ []
    ∧ (effMaxPosts { max_posts := none } = 3
    ∧ (statusOf (simulateJobRun (generateMockPosts mockRnd0) ["a"] { max_posts := none } 2)
          = "completed" →
        ∃ r, (simulateJobRun (generateMockPosts mockRnd0) ["a"] { max_posts := none } 2).result
              = some r
          ∧ r.posts.length = (["a"] : List String).length * effMaxPosts { max_posts := none }
          ∧ r.total_posts = r.posts.length
          ∧ ∃ j, (simulateJobRun (generateMockPosts mockRnd0) ["a"] { max_posts := none } 2).job
                = some j
              ∧ j.total_posts = some r.posts.length)
    ∧ (statusOf (simulateJobRun (generateRealPosts successImage successChat) ["a"]
            { max_posts := none } 2) = "completed" →
        ∃ r, (simulateJobRun (generateRealPosts successImage successChat) ["a"]
                { max_posts := none } 2).result = some r
          ∧ r.posts.length = (["a"] : List String).length * effMaxPosts { max_posts := none }
          ∧ r.total_posts = r.posts.length
          ∧ ∃ j, (simulateJobRun (generateRealPosts successImage successChat) ["a"]
                  { max_posts := none } 2).job = some j
              ∧ j.total_posts = some r.posts.length)) :=
  ⟨by decide,
    c1_completed_result_size mockRnd0 successImage successChat ["a"]
      { max_posts := none } (by decide) 2⟩

/-! ## Claim C2 -/

/-- C2 counterexample: when every Gateway call fails, the posts produced by
generateRealPosts all carry api_generated = true, not false as claimed. -/
theorem c2_counterexample :
    ((generateRealPosts alwaysFailImage alwaysFailChat ["a"] { max_posts := none }).map
        Post.api_generated) = [some true, some true, some true]
    ∧ (∀ p, imageOutcomeFailed (alwaysFailImage p) = true)
    ∧ (∀ p, chatOutcomeFailed (alwaysFailChat p) = true) :=
  ⟨rfl, fun _ => rfl, fun _ => rfl⟩

/-- generateZaiCaption yields the fixed fallback caption whenever the chat
call does not succeed. -/
theorem generateZaiCaption_fail (beh : String → ChatApiOutcome) (prompt : String)
    (hfail : chatOutcomeFailed (beh prompt) = true) :
    generateZaiCaption beh prompt = fallbackCaption := by
  unfold generateZaiCaption
  cases hbeh : beh prompt with
  | success content =>
      rw [hbeh] at hfail
      exact absurd hfail (by simp [chatOutcomeFailed])
  | httpError status body => rfl
  | malformed => rfl
  | networkError msg => rfl

/-- C2 amended: with a Gateway failing every call, post generation still
returns a post per iteration (it is a total function: the wrappers absorb
every failure), every post's imageUrl is a well-formed placeholder URL and
its caption is the fixed fallback caption, and the job still reaches
"completed" and never "failed" — but every post carries
generatedSuccessfully (api_generated) = true, not false, because the
wrappers hide the failures from generateRealPosts. -/
theorem c2_gateway_all_fail (imgBeh : String → ImageApiOutcome)
    (chatBeh : String → ChatApiOutcome) (topics : List String) (options : Options)
    (himg : ∀ p, imageOutcomeFailed (imgBeh p) = true)
    (hchat : ∀ p, chatOutcomeFailed (chatBeh p) = true) :
    (∀ post ∈ generateRealPosts imgBeh chatBeh topics options,
        post.api_generated = some true ∧ wellFormedPlaceholder post.image_url
          ∧ post.caption = fallbackCaption)
    ∧ (topics ≠ [] → ∀ n,
        statusOf (simulateJobRun (generateRealPosts imgBeh chatBeh) topics options n)
          ≠ "failed")
    ∧ (topics ≠ [] → ∀ n, topics.length < n →
        statusOf (simulateJobRun (generateRealPosts imgBeh chatBeh) topics options n)
          = "completed") := by
  refine ⟨?_, ?_, ?_⟩
  · intro post hmem
    obtain ⟨t, _, rfl⟩ := generateRealPosts_mem imgBeh chatBeh topics options post hmem
    exact ⟨rfl, generateZaiImage_fail_wellFormed imgBeh (imagePromptFor t) (himg _),
      generateZaiCaption_fail chatBeh (captionPromptFor t) (hchat _)⟩
  · intro hne n
    rw [run_eq_stateAt (generateRealPosts imgBeh chatBeh) topics options hne n]
    have hT : 0 < topics.length := List.length_pos.mpr hne
    by_cases h0 : n = 0
    · subst h0
      rw [show stateAt (generateRealPosts imgBeh chatBeh) topics options 0
          = initState topics options from by simp [stateAt]]
      exact (by decide : ("running" : String) ≠ "failed")
    · by_cases hle : n ≤ topics.length
      · rw [stateAt, if_neg h0, if_pos hle]
        exact (by decide : ("running" : String) ≠ "failed")
      · rw [stateAt, if_neg h0, if_neg hle]
        exact (by decide : ("completed" : String) ≠ "failed")
  · intro hne n hn
    rw [run_eq_stateAt (generateRealPosts imgBeh chatBeh) topics options hne n]
    rw [stateAt, if_neg (by omega : ¬ (n = 0)), if_neg (by omega : ¬ (n ≤ topics.length))]
    rfl

theorem c2_witness :
    (∀ p, imageOutcomeFailed (alwaysFailImage p) = true)
    ∧ (∀ p, chatOutcomeFailed (alwaysFailChat p) = true)
    ∧ ((∀ post ∈ generateRealPosts alwaysFailImage alwaysFailChat ["b"] { max_posts := none },
          post.api_generated = some true ∧ wellFormedPlaceholder post.image_url
            ∧ post.caption = fallbackCaption)
    ∧ ((["b"] : List String) ≠ [] → ∀ n,
        statusOf (simulateJobRun (generateRealPosts alwaysFailImage alwaysFailChat) ["b"]
            { max_posts := none } n) ≠ "failed")
    ∧ ((["b"] : List String) ≠ [] → ∀ n, (["b"] : List String).length < n →
        statusOf (simulateJobRun (generateRealPosts alwaysFailImage alwaysFailChat) ["b"]
            { max_posts := none } n) = "completed")) :=
  ⟨fun _ => rfl, fun _ => rfl,
    c2_gateway_all_fail alwaysFailImage alwaysFailChat ["b"] { max_posts := none }
      (fun _ => rfl) (fun _ => rfl)⟩

/-! ## Claim C3 -/

/-- C3 evaluation at the failing input: with a Gateway rejecting every
call, both the image call and the caption call behind every post fail, yet
generateRealPosts marks every post api_generated = true; the catch branch
that would mark a post false (fallbackRealPost) is unreachable because the
wrappers never throw. -/
theorem c3_flag_true_despite_failures :
    ((generateRealPosts alwaysFailImage alwaysFailChat ["tech"] { max_posts := none }).map
        Post.api_generated) = [some true, some true, some true]
    ∧ (∀ p, imageOutcomeFailed (alwaysFailImage p) = true)
    ∧ (∀ p, chatOutcomeFailed (alwaysFailChat p) = true)
    ∧ (fallbackRealPost "tech" "some error").api_generated = some false :=
  ⟨rfl, fun _ => rfl, fun _ => rfl, rfl⟩

/-! ## Claim C4 -/

/-- C4 counterexample: generateMockPosts embeds a multi-word topic verbatim
into its first hashtag, which therefore contains spaces. -/
theorem c4_counterexample :
    ((generateMockPosts mockRnd0 ["Social Media Strategy"] { max_posts := some 1 }).map
        Post.hashtags)
      = [["#Social Media Strategy", "#AI", "#ContentCreation", "#SocialMedia",
          "#DigitalMarketing"]]
    ∧ ' ' ∈ ("#Social Media Strategy" : String).data :=
  ⟨rfl, by decide⟩

/-- C4 amended: every post of either generator has a non-empty hashtags
list whose entries all start with the hash character; the no-space part
holds unconditionally for generateRealPosts (it strips whitespace from the
topic), while for generateMockPosts it holds only when the post's topic
itself contains no space, since the topic is embedded verbatim. -/
theorem c4_hashtags (imgBeh : String → ImageApiOutcome)
    (chatBeh : String → ChatApiOutcome) (rnd : Nat → String)
    (topicsR topicsM : List String) (optionsR optionsM : Options)
    (postR postM : Post)
    (hR : postR ∈ generateRealPosts imgBeh chatBeh topicsR optionsR)
    (hM : postM ∈ generateMockPosts rnd topicsM optionsM) :
    (postR.hashtags ≠ []
      ∧ ∀ tag ∈ postR.hashtags, tag.data.head? = some '#' ∧ ' ' ∉ tag.data)
    ∧ (postM.hashtags ≠ []
      ∧ ∀ tag ∈ postM.hashtags, tag.data.head? = some '#'
          ∧ (' ' ∉ postM.topic.data → ' ' ∉ tag.data)) := by
  obtain ⟨t, _, rfl⟩ := generateRealPosts_mem imgBeh chatBeh topicsR optionsR postR hR
  obtain ⟨u, _, r, i, rfl⟩ := generateMockPosts_mem rnd topicsM optionsM postM hM
  have hhR : (realPost imgBeh chatBeh t).hashtags
      = ["#" ++ stripSpaces t, "#BeritaIndonesia", "#Indonesia", "#News",
         "#IndonesianNews"] := rfl
  have hhM : (mockPost r u i).hashtags
      = ["#" ++ u, "#AI", "#ContentCreation", "#SocialMedia", "#DigitalMarketing"] := rfl
  have htM : (mockPost r u i).topic = u := rfl
  refine ⟨⟨by rw [hhR]; simp, ?_⟩, ⟨by rw [hhM]; simp, ?_⟩⟩
  · intro tag htag
    rw [hhR] at htag
    simp only [List.mem_cons, List.not_mem_nil, or_false] at htag
    rcases htag with rfl | rfl | rfl | rfl | rfl
    · exact ⟨hash_append_head _, space_not_mem_hash_strip _⟩
    · exact ⟨by decide, by decide⟩
    · exact ⟨by decide, by decide⟩
    · exact ⟨by decide, by decide⟩
    · exact ⟨by decide, by decide⟩
  · intro tag htag
    rw [hhM] at htag
    rw [htM]
    simp only [List.mem_cons, List.not_mem_nil, or_false] at htag
    rcases htag with rfl | rfl | rfl | rfl | rfl
    · refine ⟨hash_append_head _, ?_⟩
      intro hu hmem
      rw [String.data_append] at hmem
      rcases List.mem_append.mp hmem with h1 | h1
      · exact absurd h1 (by decide)
      · exact hu h1
    · exact ⟨by decide, fun _ => by decide⟩
    · exact ⟨by decide, fun _ => by decide⟩
    · exact ⟨by decide, fun _ => by decide⟩
    · exact ⟨by decide, fun _ => by decide⟩

theorem c4_witness :
    realPost successImage successChat "tech"
        ∈ generateRealPosts successImage successChat ["tech"] { max_posts := some 1 }
    ∧ mockPost "0.5" "tech" 0 ∈ generateMockPosts mockRnd0 ["tech"] { max_posts := some 1 }
    ∧ (((realPost successImage successChat "tech").hashtags ≠ []
      ∧ ∀ tag ∈ (realPost successImage successChat "tech").hashtags,
          tag.data.head? = some '#' ∧ ' ' ∉ tag.data)
    ∧ ((mockPost "0.5" "tech" 0).hashtags ≠ []
      ∧ ∀ tag ∈ (mockPost "0.5" "tech" 0).hashtags, tag.data.head? = some '#'
          ∧ (' ' ∉ (mockPost "0.5" "tech" 0).topic.data → ' ' ∉ tag.data))) :=
  ⟨List.Mem.head _, List.Mem.head _,
    c4_hashtags successImage successChat mockRnd0 ["tech"] ["tech"]
      { max_posts := some 1 } { max_posts := some 1 }
      (realPost successImage successChat "tech") (mockPost "0.5" "tech" 0)
      (List.Mem.head _) (List.Mem.head _)⟩
